import Mathlib

/-!
Shallow embedding of the audiocloud_lib search core (src/lib.rs).

Rust strings are modelled as `List Char`; `str::to_lowercase` is modelled
per-character with `Char.toLower` (the paths and queries of this library are
ASCII, where the two agree).  Machine integers are modelled as `Int`/`Nat`
with the explicit two's-complement reinterpretations `u32_of_i32` and
`usize_of_i32` at the two places the Rust code performs an `as` cast
(`tempo as u32` and `max_results as usize`, on a 64-bit target).
-/

namespace AudioCloud

/-- Model of `str::to_lowercase` applied to a Rust `String`: per-character
ASCII lowercasing. -/
def lowerStr (s : List Char) : List Char := s.map Char.toLower

/-- Model of `str::starts_with` for a string pattern: `strStartsWith s t`
is true when `t` is a prefix of `s`. -/
def strStartsWith : List Char → List Char → Bool
  | _, [] => true
  | [], _ :: _ => false
  | a :: s, b :: t => a == b && strStartsWith s t

/-- Model of `str::contains` for a string pattern: substring containment
(an empty needle is contained in everything, as in Rust). -/
def strContains (hay needle : List Char) : Bool :=
  match hay with
  | [] => needle.isEmpty
  | _ :: t => strStartsWith hay needle || strContains t needle

/-- Model of `str::split(' ')`: split on every single space character;
consecutive separators produce empty pieces, and the result is never the
empty list (splitting the empty string gives one empty piece). -/
def splitSpace : List Char → List (List Char)
  | [] => [[]]
  | c :: rest =>
    if c = ' ' then [] :: splitSpace rest
    else
      match splitSpace rest with
      | [] => [[c]]
      | t :: ts => (c :: t) :: ts

/-- Model of `str::trim`: drop whitespace from both ends. -/
def trimChars (s : List Char) : List Char :=
  ((s.dropWhile Char.isWhitespace).reverse.dropWhile Char.isWhitespace).reverse

/-- `enum SampleType` from src/lib.rs: `Loop(i32)` or `OneShot`. -/
inductive SampleType where
  | Loop (tempo : Int)
  | OneShot
  deriving DecidableEq

/-- `struct Sample` from src/lib.rs. -/
structure Sample where
  path : List Char
  name : List Char
  sampletype : SampleType
  deriving DecidableEq

/-- `struct PackInfo` from src/lib.rs. -/
structure PackInfo where
  description : List Char
  name : List Char
  img : Option (List Char)
  num_samples : Option Nat
  deriving DecidableEq

/-- `struct Pack` from src/lib.rs. -/
structure Pack where
  samples : List Sample
  meta : PackInfo
  deriving DecidableEq

/-- `struct SampleLibrary` from src/lib.rs. -/
structure SampleLibrary where
  packs : List Pack
  name : List Char
  deriving DecidableEq

/-- `struct SearchParams` from src/lib.rs.  `max_tempo`/`min_tempo` are
`Option<u32>` (modelled as `Option Nat`), `max_results` is `Option<i32>`
(modelled as `Option Int`). -/
structure SearchParams where
  query : List Char
  sample_type : Option SampleType
  max_tempo : Option Nat
  min_tempo : Option Nat
  pack_id : Option (List Char)
  max_results : Option Int
  deriving DecidableEq

/-- `struct SearchResult` from src/lib.rs. -/
structure SearchResult where
  samples : List Sample
  deriving DecidableEq

/-- The Rust cast `t as u32` for `t : i32`: two's-complement
reinterpretation, i.e. reduction modulo `2^32`. -/
def u32_of_i32 (t : Int) : Nat := (t % (2 ^ 32: Int)).toNat

/-- The Rust cast `t as usize` for `t : i32` on a 64-bit target:
sign-extension to 64 bits reinterpreted as unsigned, i.e. reduction
modulo `2^64`. -/
def usize_of_i32 (t : Int) : Nat := (t % (2 ^ 64 : Int)).toNat

/-- `std::mem::discriminant` comparison of two `SampleType` values:
variants compared, payloads ignored. -/
def sameVariant : SampleType → SampleType → Bool
  | SampleType.Loop _, SampleType.Loop _ => true
  | SampleType.OneShot, SampleType.OneShot => true
  | _, _ => false

/-- First gate of `use_sample_relevance` (src/lib.rs lines 69-76): reject
when a `sample_type` filter is present and its discriminant differs from
the sample's. -/
def typeGateRejects (query : SearchParams) (sample : Sample) : Bool :=
  match query.sample_type with
  | some qt => ! sameVariant qt sample.sampletype
  | none => false

/-- The `min_tempo` check of src/lib.rs line 81: fires when `min_tempo` is
set and the filter tempo, cast to u32, is strictly greater. -/
def minTempoRejects (tempo : Int) : Option Nat → Bool
  | some m => decide (u32_of_i32 tempo > m)
  | none => false

/-- The `max_tempo` check of src/lib.rs line 85: fires when `max_tempo` is
set and the filter tempo, cast to u32, is strictly smaller. -/
def maxTempoRejects (tempo : Int) : Option Nat → Bool
  | some m => decide (u32_of_i32 tempo < m)
  | none => false

/-- Second gate of `use_sample_relevance` (src/lib.rs lines 78-93): when the
filter is `Loop(tempo)`, the filter's own tempo (cast to u32) is checked
against the bounds; `OneShot` and absent filters pass. -/
def tempoGateRejects (query : SearchParams) : Bool :=
  match query.sample_type with
  | some (SampleType.Loop tempo) =>
      minTempoRejects tempo query.min_tempo || maxTempoRejects tempo query.max_tempo
  | some SampleType.OneShot => false
  | none => false

/-- `token.to_lowercase().replace("-", "")` from src/lib.rs line 103:
lowercase, then remove every `-` character. -/
def stripDashes (s : List Char) : List Char := s.filter (fun c => c != '-')

/-- One iteration of the token loop of `use_sample_relevance`
(src/lib.rs lines 97-112).  The accumulator is `(relevancy, is_filtered)`.
Empty tokens are skipped; a token starting with `-` sets the exclusion flag
when the lowercased path contains the token with all dashes removed; every
token (dash included) increments relevancy when the lowercased path
contains its lowercased form. -/
def tokenVisit (path_lower : List Char) (acc : Int × Bool) (token : List Char) : Int × Bool :=
  if token.isEmpty then acc
  else
    let fil :=
      if token.head? = some '-' then
        if strContains path_lower (stripDashes (lowerStr token)) then true else acc.2
      else acc.2
    let rel := if strContains path_lower (lowerStr token) then acc.1 + 1 else acc.1
    (rel, fil)

/-- `use_sample_relevance` from src/lib.rs lines 63-118. -/
def use_sample_relevance (query : SearchParams) (sample : Sample)
    (text_queries : List (List Char)) : Int :=
  if typeGateRejects query sample then 0
  else if tempoGateRejects query then 0
  else
    let r := text_queries.foldl (tokenVisit (lowerStr sample.path)) (0, false)
    if r.2 then 0 else r.1

/-- Token list built by `search_lib` (src/lib.rs lines 121-123): lowercase
the query, split on single spaces, trim every piece. -/
def build_text_queries (q : List Char) : List (List Char) :=
  (splitSpace (lowerStr q)).map trimChars

/-- The pack filter of `search_lib` (src/lib.rs lines 130-134): a pack is
scanned unless `pack_id` is set and differs from the pack's meta name
(exact, case-sensitive equality). -/
def pack_kept (query : SearchParams) (pack : Pack) : Bool :=
  match query.pack_id with
  | some pid => pack.meta.name == pid
  | none => true

/-- The per-pack retention loop of `search_lib` (src/lib.rs lines 136-141):
keep `(sample, score)` exactly when the score is strictly positive, in
sample order. -/
def pack_hits (query : SearchParams) (tqs : List (List Char)) (pack : Pack) :
    List (Sample × Int) :=
  pack.samples.filterMap (fun sample =>
    let rev := use_sample_relevance query sample tqs
    if rev > 0 then some (sample, rev) else none)

/-- The `sorting_vec` of `search_lib` before sorting: retained
`(sample, score)` pairs in scan order (pack order, then sample order). -/
def sorting_vec (lib : SampleLibrary) (query : SearchParams) : List (Sample × Int) :=
  ((lib.packs.filter (pack_kept query)).map
      (pack_hits query (build_text_queries query.query))).flatten

/-- The comparator of `sorting_vec.sort_by(|a, b| b.1.cmp(&a.1))`:
`a` may precede `b` when `a`'s score is at least `b`'s. -/
def scoreLE (a b : Sample × Int) : Bool := decide (b.2 ≤ a.2)

/-- `sorting_vec` after `sort_by(|a, b| b.1.cmp(&a.1))` (src/lib.rs line
144).  Rust's `sort_by` is stable, so it is modelled by the stable
`List.mergeSort` with the same comparator. -/
def sorted_vec (lib : SampleLibrary) (query : SearchParams) : List (Sample × Int) :=
  (sorting_vec lib query).mergeSort scoreLE

/-- Resolution of the limit (src/lib.rs lines 146-149): `input as usize`
when present, 10 when absent. -/
def resolve_max_results : Option Int → Nat
  | some input => usize_of_i32 input
  | none => 10

/-- `search_lib` from src/lib.rs lines 120-163. -/
def search_lib (lib : SampleLibrary) (query : SearchParams) : SearchResult :=
  let sv := sorted_vec lib query
  let mx := resolve_max_results query.max_results
  if sv.length ≥ mx then
    { samples := (sv.take mx).map Prod.fst }
  else
    { samples := sv.map Prod.fst }

/-- Model of `str::parse::<_>` digit parsing: a non-empty all-digit string
to its base-10 value. -/
def parseDigits (s : List Char) : Option Nat :=
  if s.isEmpty then none
  else if s.all Char.isDigit then
    some (s.foldl (fun acc c => acc * 10 + (c.toNat - '0'.toNat)) 0)
  else none

/-- Model of `str::parse::<i32>()`: optional single leading sign, then a
non-empty run of digits making up the whole string; the value must fit in
an `i32`, otherwise parsing fails. -/
def parseI32 (s : List Char) : Option Int :=
  let v : Option Int :=
    match s with
    | '+' :: rest => (parseDigits rest).map (fun n => (n : Int))
    | '-' :: rest => (parseDigits rest).map (fun n => -(n : Int))
    | _ => (parseDigits s).map (fun n => (n : Int))
  match v with
  | some t => if -(2 ^ 31 : Int) ≤ t ∧ t ≤ 2 ^ 31 - 1 then some t else none
  | none => none

/-- `extract_tempo_braces` from src/lib.rs lines 165-171: find the first
`[`, find the first `]` after it, parse the slice strictly between them. -/
def extract_tempo_braces (input : List Char) : Option Int :=
  match input.findIdx? (fun c => c == '[') with
  | none => none
  | some start =>
    match (input.drop (start + 1)).findIdx? (fun c => c == ']') with
    | none => none
    | some e => parseI32 ((input.drop (start + 1)).take e)

/-- `detect_tempo_txt` from src/lib.rs lines 173-183: extracted tempo, or 0
when extraction fails. -/
def detect_tempo_txt (path : List Char) : Int :=
  match extract_tempo_braces path with
  | some val => val
  | none => 0

/-- The `loop_signals` keyword array of src/lib.rs lines 186-194. -/
def loop_signals : List (List Char) :=
  ["/loop".toList, "/construction".toList, "_loop".toList, "[".toList,
   "bpm".toList, "loop".toList, "loops".toList]

/-- The keyword loop of `detect_type` (src/lib.rs lines 197-202): the first
keyword contained in the lowercased path classifies it as a `Loop` with the
tempo detected from the lowercased path; no hit falls through. -/
def detectLoop (path_lower : List Char) : List (List Char) → SampleType
  | [] => SampleType.OneShot
  | k :: ks =>
    if strContains path_lower k then SampleType.Loop (detect_tempo_txt path_lower)
    else detectLoop path_lower ks

/-- `detect_type` from src/lib.rs lines 185-204. -/
def detect_type (path : List Char) : SampleType :=
  detectLoop (lowerStr path) loop_signals

/-! ## Characterisation of the token loop -/

/-- A token contributes one relevance point when it is non-empty and the
lowercased path contains its lowercased form. -/
def token_matches (path_lower : List Char) (token : List Char) : Bool :=
  !token.isEmpty && strContains path_lower (lowerStr token)

/-- A token sets the exclusion flag when it is non-empty, starts with `-`,
and the lowercased path contains the token lowercased with every `-`
removed (this is what `replace("-", "")` does). -/
def token_excludes (path_lower : List Char) (token : List Char) : Bool :=
  !token.isEmpty && token.head? == some '-'
    && strContains path_lower (stripDashes (lowerStr token))

/-- Closed form of the token loop: 0 when any token excludes, otherwise
the number of matching tokens. -/
def token_score (path_lower : List Char) (tokens : List (List Char)) : Int :=
  if tokens.any (token_excludes path_lower) then 0
  else ((tokens.filter (token_matches path_lower)).length : Int)

lemma tokenVisit_eq (path t : List Char) (acc : Int × Bool) :
    tokenVisit path acc t
      = (acc.1 + (if token_matches path t then 1 else 0),
         acc.2 || token_excludes path t) := by
  rcases acc with ⟨r, f⟩
  by_cases he : t.isEmpty
  · simp [tokenVisit, he, token_matches, token_excludes]
  · by_cases hd : t.head? = some '-' <;>
      by_cases hcs : strContains path (stripDashes (lowerStr t)) <;>
        by_cases hcm : strContains path (lowerStr t) <;>
          simp [tokenVisit, he, hd, hcs, hcm, token_matches, token_excludes]

lemma foldl_tokenVisit (path : List Char) (tokens : List (List Char)) (r : Int) (f : Bool) :
    tokens.foldl (tokenVisit path) (r, f)
      = (r + ((tokens.filter (token_matches path)).length : Int),
         f || tokens.any (token_excludes path)) := by
  induction tokens generalizing r f with
  | nil => simp
  | cons t ts ih =>
    rw [List.foldl_cons, tokenVisit_eq, ih]
    by_cases hm : token_matches path t <;> by_cases hx : token_excludes path t <;>
      simp [List.filter_cons, hm, hx, Bool.or_assoc] <;> omega

lemma typeGateRejects_of_none (q : SearchParams) (s : Sample) (h : q.sample_type = none) :
    typeGateRejects q s = false := by
  simp [typeGateRejects, h]

lemma tempoGateRejects_of_none (q : SearchParams) (h : q.sample_type = none) :
    tempoGateRejects q = false := by
  simp [tempoGateRejects, h]

/-- When neither gate fires, `use_sample_relevance` is the closed-form
token score. -/
lemma usr_eq_token_score (q : SearchParams) (s : Sample) (toks : List (List Char))
    (h1 : typeGateRejects q s = false) (h2 : tempoGateRejects q = false) :
    use_sample_relevance q s toks = token_score (lowerStr s.path) toks := by
  rw [use_sample_relevance, h1, h2]
  simp only [Bool.false_eq_true, if_false]
  rw [foldl_tokenVisit]
  by_cases hx : toks.any (token_excludes (lowerStr s.path)) <;>
    simp [token_score, hx]

/-! ## C2: negation tokens -/

/-- Modelled from the claim C2 wording: a token excludes when the
lowercased path contains the token with only its single leading `-`
stripped and lowercased. -/
def token_excludes_claim (path_lower : List Char) (token : List Char) : Bool :=
  !token.isEmpty && token.head? == some '-'
    && strContains path_lower (lowerStr token.tail)

/-- Modelled from the claim C2 wording: the score the claim predicts,
using leading-dash-only stripping for exclusion. -/
def token_score_claim (path_lower : List Char) (tokens : List (List Char)) : Int :=
  if tokens.any (token_excludes_claim path_lower) then 0
  else ((tokens.filter (token_matches path_lower)).length : Int)

def c2sample : Sample := ⟨"xab".toList, "xab".toList, SampleType.OneShot⟩

def c2query : SearchParams := ⟨"x -a-b".toList, none, none, none, none, none⟩

def c2tokens : List (List Char) := ["x".toList, "-a-b".toList]

/-- Claim C2 counterexample: on path `"xab"` with tokens `"x"` and
`"-a-b"`, the code scores 0 — `replace("-", "")` removes every dash, so
the exclusion test is containment of `"ab"`, which holds — while the
claim's leading-dash-only reading predicts score 1, since `"xab"` does
not contain `"a-b"` and the token `"x"` matches. -/
theorem claim_C2_counterexample :
    use_sample_relevance c2query c2sample c2tokens = 0 ∧
      token_score_claim (lowerStr c2sample.path) c2tokens = 1 := by
  constructor <;> decide

/-- Claim C2 (amended): for a gate-free query, the scoring routine marks a
sample excluded (final score 0) exactly when the lowercased path contains
some non-empty leading-`-` token lowercased with all `-` characters
removed; independently every non-empty token, dashes included, adds 1 to
the relevance when the lowercased path contains it, and exclusion does not
short-circuit the loop: the final score is 0 under exclusion and the full
match count otherwise. -/
theorem claim_C2_token_negation_score (q : SearchParams) (s : Sample)
    (toks : List (List Char)) (h : q.sample_type = none) :
    use_sample_relevance q s toks = token_score (lowerStr s.path) toks :=
  usr_eq_token_score q s toks (typeGateRejects_of_none q s h)
    (tempoGateRejects_of_none q h)

/-- Witness for C2 at the concrete query of the counterexample. -/
theorem claim_C2_witness :
    use_sample_relevance c2query c2sample c2tokens
      = token_score (lowerStr c2sample.path) c2tokens :=
  claim_C2_token_negation_score c2query c2sample c2tokens rfl

/-! ## Pipeline helper lemmas -/

lemma pack_hits_mem (q : SearchParams) (tqs : List (List Char)) (pack : Pack)
    (s : Sample) (r : Int) :
    (s, r) ∈ pack_hits q tqs pack ↔
      s ∈ pack.samples ∧ use_sample_relevance q s tqs = r ∧ 0 < r := by
  simp only [pack_hits, List.mem_filterMap]
  constructor
  · rintro ⟨sample, hs, heq⟩
    by_cases hrev : use_sample_relevance q sample tqs > 0
    · rw [if_pos hrev] at heq
      cases heq
      exact ⟨hs, rfl, hrev⟩
    · rw [if_neg hrev] at heq
      exact absurd heq (by simp)
  · rintro ⟨hs, rfl, hr⟩
    exact ⟨s, hs, by simp [hr]⟩

lemma mem_sorting_vec (lib : SampleLibrary) (q : SearchParams) (s : Sample) (r : Int) :
    (s, r) ∈ sorting_vec lib q ↔
      ∃ pack, pack ∈ lib.packs ∧ pack_kept q pack = true ∧ s ∈ pack.samples ∧
        use_sample_relevance q s (build_text_queries q.query) = r ∧ 0 < r := by
  simp only [sorting_vec, List.mem_flatten, List.mem_map, List.mem_filter]
  constructor
  · rintro ⟨l, ⟨pack, ⟨hp, hk⟩, rfl⟩, hmem⟩
    rcases (pack_hits_mem q _ pack s r).mp hmem with ⟨hs, hr, hpos⟩
    exact ⟨pack, hp, hk, hs, hr, hpos⟩
  · rintro ⟨pack, hp, hk, hs, hr, hpos⟩
    exact ⟨pack_hits q (build_text_queries q.query) pack, ⟨pack, ⟨hp, hk⟩, rfl⟩,
      (pack_hits_mem q _ pack s r).mpr ⟨hs, hr, hpos⟩⟩

/-- Both branches of the final truncation of `search_lib` are a `take`. -/
lemma search_lib_samples (lib : SampleLibrary) (q : SearchParams) :
    (search_lib lib q).samples
      = ((sorted_vec lib q).take (resolve_max_results q.max_results)).map Prod.fst := by
  rw [search_lib]
  split
  · rfl
  · next h => rw [List.take_of_length_le (by omega)]

lemma mem_search_lib (lib : SampleLibrary) (q : SearchParams) (s : Sample)
    (h : s ∈ (search_lib lib q).samples) :
    ∃ r, (s, r) ∈ sorting_vec lib q := by
  rw [search_lib_samples] at h
  rcases List.mem_map.mp h with ⟨⟨a, r⟩, hmem, rfl⟩
  refine ⟨r, ?_⟩
  have h1 : (a, r) ∈ sorted_vec lib q := (List.take_sublist _ _).subset hmem
  rw [sorted_vec] at h1
  exact List.mem_mergeSort.mp h1

lemma search_lib_samples_of_nil (lib : SampleLibrary) (q : SearchParams)
    (h : sorting_vec lib q = []) : (search_lib lib q).samples = [] := by
  rw [search_lib_samples, sorted_vec, h, List.mergeSort_nil]
  simp

lemma search_lib_no_truncation (lib : SampleLibrary) (q : SearchParams)
    (h : (sorting_vec lib q).length < resolve_max_results q.max_results) :
    (search_lib lib q).samples = (sorted_vec lib q).map Prod.fst := by
  rw [search_lib_samples, List.take_of_length_le]
  rw [sorted_vec, List.length_mergeSort]
  omega

lemma search_lib_length (lib : SampleLibrary) (q : SearchParams) :
    (search_lib lib q).samples.length
      = min (resolve_max_results q.max_results) (sorting_vec lib q).length := by
  rw [search_lib_samples, List.length_map, List.length_take, sorted_vec,
    List.length_mergeSort]

/-! ## C3: the tempo gate compares the filter's own tempo -/

/-- Claim C3: with a `Loop(t)` filter against a `Loop` sample, the tempo
gate compares `t` — the query's own declared filter tempo, as cast to u32
— against the bounds: a set `min_tempo` below the cast tempo zeroes the
score, a set `max_tempo` above it zeroes the score; with an `OneShot` or
absent filter the bounds never change the score; and the candidate
sample's own tempo payload never influences the score. -/
theorem claim_C3_tempo_gate_uses_filter_tempo (q : SearchParams) (s : Sample)
    (toks : List (List Char)) :
    (∀ t t2 m, q.sample_type = some (SampleType.Loop t) →
        s.sampletype = SampleType.Loop t2 → q.min_tempo = some m →
        m < u32_of_i32 t → use_sample_relevance q s toks = 0) ∧
    (∀ t t2 m, q.sample_type = some (SampleType.Loop t) →
        s.sampletype = SampleType.Loop t2 → q.max_tempo = some m →
        u32_of_i32 t < m → use_sample_relevance q s toks = 0) ∧
    ((q.sample_type = some SampleType.OneShot ∨ q.sample_type = none) →
      ∀ mn mx, use_sample_relevance { q with min_tempo := mn, max_tempo := mx } s toks
        = use_sample_relevance q s toks) ∧
    (∀ t t2, use_sample_relevance q { s with sampletype := SampleType.Loop t } toks
        = use_sample_relevance q { s with sampletype := SampleType.Loop t2 } toks) := by
  refine ⟨?_, ?_, ?_, ?_⟩
  · intro t t2 m hq hs hm hlt
    have hgate : tempoGateRejects q = true := by
      simp [tempoGateRejects, hq, minTempoRejects, hm, hlt]
    simp [use_sample_relevance, hgate]
  · intro t t2 m hq hs hm hlt
    have hgate : tempoGateRejects q = true := by
      simp [tempoGateRejects, hq, maxTempoRejects, hm, hlt]
    simp [use_sample_relevance, hgate]
  · rintro (hq | hq) mn mx <;>
      simp [use_sample_relevance, typeGateRejects, tempoGateRejects, hq]
  · intro t t2
    rcases hq : q.sample_type with _ | qt
    · simp [use_sample_relevance, typeGateRejects, tempoGateRejects, hq]
    · cases qt <;>
        simp [use_sample_relevance, typeGateRejects, tempoGateRejects, hq, sameVariant]

def c3query : SearchParams :=
  ⟨"kick".toList, some (SampleType.Loop 120), none, some 100, none, none⟩

def c3sample : Sample := ⟨"kick.wav".toList, "kick.wav".toList, SampleType.Loop 120⟩

/-- Witness for C3: a `Loop(120)` filter with `min_tempo = 100` zeroes the
score of a `Loop` sample that the text query would otherwise match. -/
theorem claim_C3_witness :
    use_sample_relevance c3query c3sample ["kick".toList] = 0 :=
  (claim_C3_tempo_gate_uses_filter_tempo c3query c3sample ["kick".toList]).1
    120 120 100 rfl rfl rfl (by decide)

/-! ## C4: the type gate compares variants only -/

/-- Claim C4: a present `sample_type` filter whose variant differs from the
sample's zeroes the score no matter what the tokens or tempo bounds are;
the comparison is by variant only, so `Loop(t)` and `Loop(t2)` always
agree; and an `OneShot` query against a library of only `Loop` samples
returns an empty result. -/
theorem claim_C4_type_gate :
    (∀ (q : SearchParams) (s : Sample) (toks : List (List Char)) (qt : SampleType),
        q.sample_type = some qt → sameVariant qt s.sampletype = false →
        use_sample_relevance q s toks = 0) ∧
    (∀ t t2 : Int, sameVariant (SampleType.Loop t) (SampleType.Loop t2) = true) ∧
    (∀ (lib : SampleLibrary) (q : SearchParams), q.sample_type = some SampleType.OneShot →
      (∀ p ∈ lib.packs, ∀ s ∈ p.samples, ∃ t, s.sampletype = SampleType.Loop t) →
      (search_lib lib q).samples = []) := by
  refine ⟨?_, ?_, ?_⟩
  · intro q s toks qt hq hv
    have hgate : typeGateRejects q s = true := by
      simp [typeGateRejects, hq, hv]
    simp [use_sample_relevance, hgate]
  · intro t t2
    rfl
  · intro lib q hq hall
    apply search_lib_samples_of_nil
    rw [List.eq_nil_iff_forall_not_mem]
    rintro ⟨s, r⟩ hmem
    rcases (mem_sorting_vec lib q s r).mp hmem with ⟨pack, hp, hk, hs, hr, hpos⟩
    rcases hall pack hp s hs with ⟨t, ht⟩
    have hz : use_sample_relevance q s (build_text_queries q.query) = 0 := by
      have hgate : typeGateRejects q s = true := by
        simp [typeGateRejects, hq, ht, sameVariant]
      simp [use_sample_relevance, hgate]
    omega

def c4query : SearchParams :=
  ⟨"kick".toList, some SampleType.OneShot, none, none, none, none⟩

def c4sample : Sample := ⟨"kick.wav".toList, "kick.wav".toList, SampleType.Loop 90⟩

/-- Witness for C4: an `OneShot` filter zeroes the score of a `Loop`
sample even though the text query matches its path. -/
theorem claim_C4_witness :
    use_sample_relevance c4query c4sample ["kick".toList] = 0 :=
  claim_C4_type_gate.1 c4query c4sample ["kick".toList] SampleType.OneShot rfl rfl

/-! ## C9: the i32-to-u32 cast in the tempo gate -/

def c9query : SearchParams :=
  ⟨"kick".toList, some (SampleType.Loop (-1)), none, some 4294967295, none, none⟩

def c9sample : Sample := ⟨"kick.wav".toList, "kick.wav".toList, SampleType.Loop 0⟩

/-- Claim C9 counterexample: the claim says a filter of `Loop(-1)` with
any `min_tempo` set always scores 0, but with `min_tempo = 4294967295`
(`u32::MAX`) the gate compares `4294967295 > 4294967295`, which fails, so
a matching `Loop` sample scores 1. -/
theorem claim_C9_counterexample :
    use_sample_relevance c9query c9sample ["kick".toList] = 1 := by
  decide

/-- Claim C9 (amended): the filter's `Loop` tempo is cast to u32 before
comparison, so a negative `t` in the i32 range compares as `t + 2^32`; a
filter of `Loop(-1)` with any `min_tempo` strictly below `u32::MAX =
4294967295` set scores 0 (at `u32::MAX` itself the strict comparison
fails); and negative tempos are reachable: `detect_type` on a path
containing `[-5]` (as its first bracket group) yields `Loop(-5)`. -/
theorem claim_C9_u32_cast :
    (∀ t : Int, -(2 ^ 31) ≤ t → t < 0 → (u32_of_i32 t : Int) = t + 2 ^ 32) ∧
    (∀ (q : SearchParams) (s : Sample) (toks : List (List Char)) (m : Nat),
        q.sample_type = some (SampleType.Loop (-1)) → q.min_tempo = some m →
        m < 4294967295 → use_sample_relevance q s toks = 0) ∧
    detect_type "kick_[-5].wav".toList = SampleType.Loop (-5) := by
  refine ⟨?_, ?_, ?_⟩
  · intro t h1 h2
    simp only [u32_of_i32]
    omega
  · intro q s toks m hq hm hlt
    by_cases hg : typeGateRejects q s
    · simp [use_sample_relevance, hg]
    · have hcast : u32_of_i32 (-1) = 4294967295 := by decide
      have hgate : tempoGateRejects q = true := by
        simp [tempoGateRejects, hq, minTempoRejects, hm, hcast, hlt]
      simp [use_sample_relevance, hg, hgate]
  · decide

def c9query2 : SearchParams :=
  ⟨"kick".toList, some (SampleType.Loop (-1)), none, some 100, none, none⟩

/-- Witness for C9: the cast of `-7` and the `Loop(-1)` filter against a
sub-`u32::MAX` minimum tempo. -/
theorem claim_C9_witness :
    (u32_of_i32 (-7) : Int) = -7 + 2 ^ 32 ∧
      use_sample_relevance c9query2 c9sample ["kick".toList] = 0 :=
  ⟨claim_C9_u32_cast.1 (-7) (by decide) (by decide),
   claim_C9_u32_cast.2.1 c9query2 c9sample ["kick".toList] 100 rfl rfl (by decide)⟩

/-! ## C5: the classifier against its reference description -/

/-- Split a string at the first occurrence of a character: `some (pre,
post)` with the occurrence removed, or `none` when the character is
absent. -/
def breakAtChar (c : Char) : List Char → Option (List Char × List Char)
  | [] => none
  | x :: xs =>
    if x = c then some ([], xs)
    else
      match breakAtChar c xs with
      | none => none
      | some (pre, post) => some (x :: pre, post)

/-- Modelled from the claim C5 wording: the tempo is parsed from strictly
between the first `[` and the first `]` after it — only the first
bracketed region is used — and is 0 when there is no `[`, no following
`]`, or an unparseable interior. -/
def spec_tempo (path_lower : List Char) : Int :=
  match breakAtChar '[' path_lower with
  | none => 0
  | some (_, after) =>
    match breakAtChar ']' after with
    | none => 0
    | some (interior, _) =>
      match parseI32 interior with
      | some t => t
      | none => 0

/-- Modelled from the claim C5 wording: `Loop` with the bracket tempo when
the lowercased path contains any keyword of `loop_signals`, otherwise
`OneShot`. -/
def detect_type_spec (path : List Char) : SampleType :=
  if loop_signals.any (fun k => strContains (lowerStr path) k) then
    SampleType.Loop (spec_tempo (lowerStr path))
  else SampleType.OneShot

lemma breakAtChar_eq (c : Char) (l : List Char) :
    breakAtChar c l
      = (l.findIdx? (fun x => x == c)).map (fun i => (l.take i, l.drop (i + 1))) := by
  induction l with
  | nil => simp [breakAtChar]
  | cons x xs ih =>
    by_cases hx : x = c
    · simp [breakAtChar, hx]
    · have hpx : (x == c) = false := by simpa using hx
      simp only [breakAtChar, if_neg hx, List.findIdx?_cons, hpx, Bool.false_eq_true,
        if_false, List.findIdx?_succ, ih]
      cases hfound : xs.findIdx? (fun y => y == c) with
      | none => simp
      | some i => simp

lemma detect_tempo_txt_eq_spec (l : List Char) : detect_tempo_txt l = spec_tempo l := by
  simp only [detect_tempo_txt, extract_tempo_braces, spec_tempo, breakAtChar_eq]
  cases h1 : l.findIdx? (fun c => c == '[') with
  | none => rfl
  | some s =>
    cases h2 : (l.drop (s + 1)).findIdx? (fun c => c == ']') with
    | none => simp [h2]
    | some e => cases hp : parseI32 ((l.drop (s + 1)).take e) <;> simp [h2, hp]

lemma detectLoop_eq (pl : List Char) (ks : List (List Char)) :
    detectLoop pl ks
      = if ks.any (fun k => strContains pl k) then SampleType.Loop (detect_tempo_txt pl)
        else SampleType.OneShot := by
  induction ks with
  | nil => simp [detectLoop]
  | cons k ks ih =>
    by_cases h : strContains pl k <;> simp [detectLoop, h, ih]

/-- Claim C5: `detect_type` coincides with its reference description
(`detect_type_spec`) on every path; in particular a path containing
`[120]` and no other loop keyword yields `Loop(120)`, and a path
containing `loop` with malformed brackets yields `Loop(0)`. -/
theorem claim_C5_detect_type_matches_reference :
    (∀ p : List Char, detect_type p = detect_type_spec p) ∧
    detect_type "a[120]b.wav".toList = SampleType.Loop 120 ∧
    detect_type "loop_[abc".toList = SampleType.Loop 0 := by
  refine ⟨?_, by decide, by decide⟩
  intro p
  rw [detect_type, detectLoop_eq, detect_type_spec]
  by_cases h : loop_signals.any (fun k => strContains (lowerStr p) k) <;>
    simp [h, detect_tempo_txt_eq_spec]

/-! ## C6: retention, descending sort, stable ties -/

lemma scoreLE_trans (a b c : Sample × Int) (h1 : scoreLE a b) (h2 : scoreLE b c) :
    scoreLE a c := by
  simp only [scoreLE, decide_eq_true_eq] at h1 h2 ⊢
  omega

lemma scoreLE_total (a b : Sample × Int) : scoreLE a b || scoreLE b a := by
  rcases Int.le_total b.2 a.2 with h | h <;> simp [scoreLE, h]

lemma sorted_vec_pairwise (lib : SampleLibrary) (q : SearchParams) :
    (sorted_vec lib q).Pairwise (fun a b => b.2 ≤ a.2) := by
  have h := List.sorted_mergeSort scoreLE_trans scoreLE_total (sorting_vec lib q)
  rw [sorted_vec]
  exact h.imp (fun hab => by simpa [scoreLE] using hab)

/-- Stability of the model's sort: within one score class, `sorted_vec`
lists the pairs exactly as `sorting_vec` does, i.e. in scan order. -/
lemma filter_sorted_vec (lib : SampleLibrary) (q : SearchParams) (c : Int) :
    (sorted_vec lib q).filter (fun p => p.2 == c)
      = (sorting_vec lib q).filter (fun p => p.2 == c) := by
  have hpw : (( sorting_vec lib q).filter (fun p => p.2 == c)).Pairwise
      (fun a b => scoreLE a b = true) := by
    apply List.pairwise_of_forall_mem_list
    intro a ha b hb
    have ha2 := (List.mem_filter.mp ha).2
    have hb2 := (List.mem_filter.mp hb).2
    simp only [beq_iff_eq] at ha2 hb2
    simp [scoreLE, ha2, hb2]
  have hsub : List.Sublist ((sorting_vec lib q).filter (fun p => p.2 == c))
      (sorted_vec lib q) := by
    rw [sorted_vec]
    exact List.sublist_mergeSort scoreLE_trans scoreLE_total hpw
      (List.filter_sublist (sorting_vec lib q))
  have hfil : List.Perm ((sorted_vec lib q).filter (fun p => p.2 == c))
      ((sorting_vec lib q).filter (fun p => p.2 == c)) := by
    rw [sorted_vec]
    exact (List.mergeSort_perm (sorting_vec lib q) scoreLE).filter _
  have hFf : ((sorting_vec lib q).filter (fun p => p.2 == c)).filter (fun p => p.2 == c)
      = (sorting_vec lib q).filter (fun p => p.2 == c) :=
    List.filter_eq_self.mpr (fun a ha => (List.mem_filter.mp ha).2)
  have hsub2 := hsub.filter (fun p => p.2 == c)
  rw [hFf] at hsub2
  exact (hsub2.eq_of_length hfil.length_eq.symm).symm

lemma usr_empty_query (q : SearchParams) (s : Sample) (h : q.query = []) :
    use_sample_relevance q s (build_text_queries q.query) = 0 := by
  rw [h]
  have hb : build_text_queries [] = [[]] := rfl
  rw [hb]
  simp only [use_sample_relevance]
  by_cases h1 : typeGateRejects q s
  · simp [h1]
  · by_cases h2 : tempoGateRejects q
    · simp [h1, h2]
    · simp [h1, h2, tokenVisit]

/-- Claim C6: `sorting_vec` retains exactly the scanned samples whose
score is strictly positive (so a fully empty query yields an empty
result); `sorted_vec` is sorted by score descending; and samples with
equal scores keep their original scan order (pack order, then sample
order within a pack — `sorting_vec` is built in exactly that order). -/
theorem claim_C6_retention_sort_stability (lib : SampleLibrary) (q : SearchParams) :
    (∀ (s : Sample) (r : Int), (s, r) ∈ sorting_vec lib q ↔
      ∃ pack, pack ∈ lib.packs ∧ pack_kept q pack = true ∧ s ∈ pack.samples ∧
        use_sample_relevance q s (build_text_queries q.query) = r ∧ 0 < r) ∧
    (sorted_vec lib q).Pairwise (fun a b => b.2 ≤ a.2) ∧
    (∀ c : Int, (sorted_vec lib q).filter (fun p => p.2 == c)
        = (sorting_vec lib q).filter (fun p => p.2 == c)) ∧
    (q.query = [] → (search_lib lib q).samples = []) := by
  refine ⟨mem_sorting_vec lib q, sorted_vec_pairwise lib q, filter_sorted_vec lib q, ?_⟩
  intro h
  apply search_lib_samples_of_nil
  rw [List.eq_nil_iff_forall_not_mem]
  rintro ⟨s, r⟩ hmem
  rcases (mem_sorting_vec lib q s r).mp hmem with ⟨pack, hp, hk, hs, hr, hpos⟩
  have hz := usr_empty_query q s h
  omega

def exSample : Sample := ⟨"kick.wav".toList, "kick.wav".toList, SampleType.OneShot⟩

def exPack : Pack := ⟨[exSample], ⟨"drum pack".toList, "Drums".toList, none, none⟩⟩

def exLib : SampleLibrary := ⟨[exPack], "Library".toList⟩

def c6query : SearchParams := ⟨[], none, none, none, none, none⟩

/-- Witness for C6: the empty query returns no samples. -/
theorem claim_C6_witness : (search_lib exLib c6query).samples = [] :=
  (claim_C6_retention_sort_stability exLib c6query).2.2.2 rfl

/-! ## C7: the result limit -/

/-- Claim C7: the result length is the minimum of the resolved limit and
the number of retained samples, so it never exceeds the limit and is
never padded; the limit is 10 when `max_results` is absent (a query
matching 15 samples returns exactly 10), and with `max_results = 3` a
query matching 1 sample returns exactly 1. -/
theorem claim_C7_result_limit (lib : SampleLibrary) (q : SearchParams) :
    (search_lib lib q).samples.length
        = min (resolve_max_results q.max_results) (sorting_vec lib q).length ∧
    (q.max_results = none → resolve_max_results q.max_results = 10) ∧
    (q.max_results = none → (sorting_vec lib q).length = 15 →
      (search_lib lib q).samples.length = 10) ∧
    (q.max_results = some 3 → (sorting_vec lib q).length = 1 →
      (search_lib lib q).samples.length = 1) := by
  refine ⟨search_lib_length lib q, ?_, ?_, ?_⟩
  · intro h
    rw [h]
    decide
  · intro h h15
    rw [search_lib_length, h, h15]
    decide
  · intro h h1
    rw [search_lib_length, h, h1]
    decide

def c7query : SearchParams := ⟨"kick".toList, none, none, none, none, some 3⟩

/-- Witness for C7: `max_results = 3` with a single matching sample
returns exactly one sample. -/
theorem claim_C7_witness : (search_lib exLib c7query).samples.length = 1 :=
  (claim_C7_result_limit exLib c7query).2.2.2 rfl (by decide)

/-! ## C8: the pack filter -/

/-- Claim C8: when `pack_id` is set, every returned sample comes from a
pack whose meta name equals it under exact, case-sensitive equality, and
a `pack_id` matching no pack yields a result with zero samples. -/
theorem claim_C8_pack_filter (lib : SampleLibrary) (q : SearchParams) (pid : List Char)
    (h : q.pack_id = some pid) :
    (∀ s ∈ (search_lib lib q).samples,
        ∃ pack, pack ∈ lib.packs ∧ pack.meta.name = pid ∧ s ∈ pack.samples) ∧
    ((∀ pack ∈ lib.packs, pack.meta.name ≠ pid) → (search_lib lib q).samples = []) := by
  constructor
  · intro s hs
    rcases mem_search_lib lib q s hs with ⟨r, hr⟩
    rcases (mem_sorting_vec lib q s r).mp hr with ⟨pack, hp, hk, hsm, _, _⟩
    refine ⟨pack, hp, ?_, hsm⟩
    simpa [pack_kept, h] using hk
  · intro hall
    apply search_lib_samples_of_nil
    rw [List.eq_nil_iff_forall_not_mem]
    rintro ⟨s, r⟩ hmem
    rcases (mem_sorting_vec lib q s r).mp hmem with ⟨pack, hp, hk, _, _, _⟩
    have hname : pack.meta.name = pid := by simpa [pack_kept, h] using hk
    exact hall pack hp hname

def c8query : SearchParams :=
  ⟨"kick".toList, none, none, none, some "Rock".toList, none⟩

/-- Witness for C8: a `pack_id` naming no pack of the library returns no
samples. -/
theorem claim_C8_witness : (search_lib exLib c8query).samples = [] :=
  (claim_C8_pack_filter exLib c8query "Rock".toList rfl).2 (by decide)

/-! ## C10: provenance of returned samples -/

/-- Claim C10: every sample of the result is, field for field, a sample
contained in some pack of the input library — `search_lib` fabricates and
mutates nothing. -/
theorem claim_C10_provenance (lib : SampleLibrary) (q : SearchParams) (s : Sample)
    (h : s ∈ (search_lib lib q).samples) :
    ∃ pack, pack ∈ lib.packs ∧ s ∈ pack.samples := by
  rcases mem_search_lib lib q s h with ⟨r, hr⟩
  rcases (mem_sorting_vec lib q s r).mp hr with ⟨pack, hp, _, hsm, _, _⟩
  exact ⟨pack, hp, hsm⟩

def c10query : SearchParams := ⟨"kick".toList, none, none, none, none, none⟩

/-- Witness for C10 at a concrete one-pack library. -/
theorem claim_C10_witness : ∃ pack, pack ∈ exLib.packs ∧ exSample ∈ pack.samples :=
  claim_C10_provenance exLib c10query exSample (by
    have h1 : sorting_vec exLib c10query = [(exSample, 1)] := by decide
    rw [search_lib_samples, sorted_vec, h1, List.mergeSort_singleton]
    decide)

/-! ## C1: negative max_results -/

def c1query : SearchParams := ⟨"kick".toList, none, none, none, none, some (-1)⟩

/-- Claim C1 counterexample: with `max_results = -1` and one matching
sample, `search_lib` returns that sample, not an empty `SearchResult`:
`input as usize` maps `-1` to `2^64 - 1`, so the truncation keeps
everything instead of truncating to zero elements. -/
theorem claim_C1_counterexample :
    (search_lib exLib c1query).samples = [exSample] ∧
      [exSample] ≠ ([] : List Sample) := by
  constructor
  · have h1 : sorting_vec exLib c1query = [(exSample, 1)] := by decide
    rw [search_lib_samples, sorted_vec, h1, List.mergeSort_singleton]
    decide
  · simp

/-- Claim C1 (amended): for every library and every query whose
`max_results` is present and negative, the `as usize` cast turns the
limit into `i + 2^64 ≥ 2^64 - 2^31`, so (for any library whose retained
list has at most `2^32` entries) `search_lib` truncates nothing and
returns all positive-score samples in ranked order; it never fails or
panics on such input. -/
theorem claim_C1_negative_max_results_no_truncation (lib : SampleLibrary)
    (q : SearchParams) (i : Int) (h1 : q.max_results = some i) (h2 : i < 0)
    (h3 : -(2 ^ 31) ≤ i) (h4 : (sorting_vec lib q).length ≤ 2 ^ 32) :
    (search_lib lib q).samples = (sorted_vec lib q).map Prod.fst := by
  apply search_lib_no_truncation
  rw [h1]
  simp only [resolve_max_results, usize_of_i32]
  omega

/-- Witness for C1 at the concrete one-sample library. -/
theorem claim_C1_witness :
    (search_lib exLib c1query).samples = (sorted_vec exLib c1query).map Prod.fst :=
  claim_C1_negative_max_results_no_truncation exLib c1query (-1) rfl (by decide)
    (by decide) (by decide)

end AudioCloud
